import Mathlib

/-!
Shallow embedding of the kernel registration-and-dispatch engine of
`torchvision/transforms/v2/functional/_utils.py`.

Python classes are modelled by a name together with their method-resolution
order (a list of class names, most specific first).  Tensor-like runtime
values carry their runtime class, a storage identity, payload data and
metadata fields.  The process-wide mutable registry
`_KERNEL_REGISTRY : Dict[Callable, Dict[Type, Callable]]` is modelled as an
association list keyed by functional name, each bucket an association list
keyed by type name, with Python-dict semantics (lookup finds the first
matching key; assignment overwrites in place or appends; `setdefault`
appends an empty bucket at the end when the key is absent).  Stateful
operations take the registry as an explicit argument and return the registry
after the call together with the raised error, if any.
-/

/-- A Python class: its identity (name) and its method-resolution order,
the class itself first. -/
structure PyType where
  name : String
  mro : List String
deriving DecidableEq, Repr

/-- Embedding of `issubclass(s, t)` for our class model: `t` occurs in `s`'s MRO. -/
def issubclass (s t : PyType) : Bool :=
  s.mro.contains t.name

/-- The generic array type `torch.Tensor`. -/
def torchTensor : PyType :=
  { name := "Tensor", mro := ["Tensor", "object"] }

/-- The `datapoints.Datapoint` marker type, a subclass of `torch.Tensor`. -/
def Datapoint : PyType :=
  { name := "Datapoint", mro := ["Datapoint", "Tensor", "object"] }

/-- Built-in concrete datapoint type `datapoints.Image`. -/
def Image : PyType :=
  { name := "Image", mro := ["Image", "Datapoint", "Tensor", "object"] }

/-- Built-in concrete datapoint type `datapoints.Video`. -/
def Video : PyType :=
  { name := "Video", mro := ["Video", "Datapoint", "Tensor", "object"] }

/-- Built-in concrete datapoint type `datapoints.BoundingBoxes`. -/
def BoundingBoxes : PyType :=
  { name := "BoundingBoxes", mro := ["BoundingBoxes", "Datapoint", "Tensor", "object"] }

/-- Built-in concrete datapoint type `datapoints.Mask`. -/
def Mask : PyType :=
  { name := "Mask", mro := ["Mask", "Datapoint", "Tensor", "object"] }

/-- A tensor-like runtime value: its runtime class, the identity of its
underlying storage, its payload, and its metadata fields (e.g. coordinate
format, canvas size), modelled as named integer fields. -/
structure Value where
  ty : PyType
  storage : Nat
  data : List Int
  meta : List (String × Int)
deriving DecidableEq, Repr

/-- Embedding of `isinstance(v, t)`: the runtime class of `v` is `t` or a subclass. -/
def isinstance (v : Value) (t : PyType) : Bool :=
  issubclass v.ty t

/-- Embedding of `is_pure_tensor` from the source: an instance of the generic array type
that is not an instance of the `Datapoint` marker. -/
def is_pure_tensor (v : Value) : Bool :=
  isinstance v torchTensor && !isinstance v Datapoint

/-- Embedding of `Tensor.as_subclass(cls)`, the bare-array view operation of the external
array library: zero-copy type (re)tagging — same storage, same payload, same
metadata, new runtime class. -/
def as_subclass (v : Value) (t : PyType) : Value :=
  { v with ty := t }

/-- Modelled from the spec: `datapoints.wrap(output, like=reference)` lives
in the `torchvision.datapoints` package, which is not among the provided
source files.  Per the spec (§4.6): with no reference the raw value is
returned unchanged; otherwise a value of the reference's type is built on
the raw value's storage and payload, copying the reference's metadata
fields. -/
def datapoints_wrap (output : Value) (like : Option Value) : Value :=
  match like with
  | none => output
  | some ref => { ty := ref.ty, storage := output.storage, data := output.data, meta := ref.meta }

/-- Extra positional arguments passed through to kernels (`*args`). -/
abbrev Args := List Int

/-- Python exceptions raised by this module. -/
inductive PyErr where
  | valueError (msg : String)
  | typeError (msg : String)
deriving DecidableEq, Repr

/-- A single-output kernel: a callable from an input value and extra
arguments to a value, or a raised exception. -/
abbrev Kernel := Value → Args → Except PyErr Value

/-- A fixed-size ordered collection of outputs, as returned by
five_crop / ten_crop style kernels: the container's runtime type name and
its elements. -/
structure PyTuple where
  ctype : String
  elems : List Value

/-- A multi-output kernel (five_crop / ten_crop style). -/
abbrev MultiKernel := Value → Args → Except PyErr PyTuple

/-- A registry entry: Python stores both shapes of kernel as untyped
callables in the same registry. -/
inductive PyKernel where
  | single (k : Kernel)
  | multi (k : MultiKernel)

/-- Python-dict lookup on an association list. -/
def dictGet {α : Type} : List (String × α) → String → Option α
  | [], _ => none
  | (k, v) :: rest, key => if k = key then some v else dictGet rest key

/-- Python-dict membership. -/
def dictContains {α : Type} (d : List (String × α)) (key : String) : Bool :=
  (dictGet d key).isSome

/-- Python-dict assignment `d[key] = v`: overwrite in place if the key is
present, else append. -/
def dictInsert {α : Type} : List (String × α) → String → α → List (String × α)
  | [], key, v => [(key, v)]
  | (k, w) :: rest, key, v =>
    if k = key then (key, v) :: rest else (k, w) :: dictInsert rest key v

/-- The two-level kernel registry `_KERNEL_REGISTRY`:
functional name ↦ (type name ↦ kernel). -/
abbrev Registry := List (String × List (String × PyKernel))

/-- Message of the duplicate-registration error of `_register_kernel_internal`. -/
def dupKernelMsg (functional : String) (input_type : PyType) : String :=
  "Functional " ++ functional ++ " already has a kernel registered for type "
    ++ input_type.name ++ "."

/-- Message of the duplicate-registration error of
`_register_five_ten_crop_kernel_internal`. -/
def dupFiveTenMsg (functional : String) (input_type : PyType) : String :=
  "Functional '" ++ functional ++ "' already has a kernel registered for type '"
    ++ input_type.name ++ "'."

/-- Message of the `register_kernel` error for a class that is not a
`Datapoint` subclass. -/
def notDatapointMsg (datapoint_cls : PyType) : String :=
  "Kernels can only be registered for subclasses of torchvision.datapoints.Datapoint, but got "
    ++ datapoint_cls.name ++ "."

/-- Message of the `register_kernel` error for a built-in datapoint class. -/
def builtinMsg (datapoint_cls : PyType) : String :=
  "Kernels cannot be registered for the builtin datapoint classes, but got "
    ++ datapoint_cls.name

/-- Message of the `_get_kernel` error for a functional with no (or an
empty) bucket. -/
def noBucketMsg (functional : String) : String :=
  "No kernel registered for functional " ++ functional ++ "."

/-- Message of the `_get_kernel` dispatch error when the MRO walk finds no
kernel and passthrough is not allowed. -/
def unsupportedTypeMsg (functional : String) (registry : List (String × PyKernel))
    (input_type : PyType) : String :=
  "Functional F." ++ functional ++ " supports inputs of type "
    ++ String.intercalate ", " (registry.map Prod.fst)
    ++ ", but got " ++ input_type.name ++ " instead."

/-- Embedding of the `setdefault` call on the outer registry dict: ensure a (possibly empty)
bucket exists for the functional. -/
def regSetdefault (st : Registry) (functional : String) : Registry :=
  if dictContains st functional then st else st ++ [(functional, [])]

/-- Store a kernel under `(functional, typeName)`; the bucket is assumed to
exist (the callers run `setdefault` first). -/
def regStore (st : Registry) (functional typeName : String) (k : PyKernel) : Registry :=
  match st with
  | [] => []
  | (f, bucket) :: rest =>
    if f = functional then (f, dictInsert bucket typeName k) :: rest
    else (f, bucket) :: regStore rest functional typeName k

/-- Embedding of `_kernel_datapoint_wrapper` from the source: the returned kernel passes
the plain-tensor view of the input (same storage) to the raw kernel together
with the same extra arguments, and rewraps the raw output against the
original input as the "like" reference.  Exceptions from the raw kernel
propagate unchanged. -/
def _kernel_datapoint_wrapper (kernel : Kernel) : Kernel :=
  fun inpt args =>
    match kernel (as_subclass inpt torchTensor) args with
    | Except.error e => Except.error e
    | Except.ok output => Except.ok (datapoints_wrap output (some inpt))

/-- The decorator-factory stage of `_register_kernel_internal`: runs
`setdefault` and the duplicate check.  Returns the registry after the call
and the raised error, if any. -/
def registerKernelFactory (st : Registry) (functional : String) (input_type : PyType) :
    Registry × Option PyErr :=
  if dictContains ((dictGet (regSetdefault st functional) functional).getD []) input_type.name then
    (regSetdefault st functional, some (PyErr.valueError (dupKernelMsg functional input_type)))
  else
    (regSetdefault st functional, none)

/-- The decorator stage of `_register_kernel_internal`: stores the kernel,
wrapped with `_kernel_datapoint_wrapper` when the input type is a
`Datapoint` subclass and `datapoint_wrapper` is true.  Performs no check:
it overwrites whatever is stored. -/
def registerKernelDecorator (st : Registry) (functional : String) (input_type : PyType)
    (datapoint_wrapper : Bool) (kernel : Kernel) : Registry :=
  regStore st functional input_type.name
    (PyKernel.single
      (if issubclass input_type Datapoint && datapoint_wrapper then
        _kernel_datapoint_wrapper kernel
      else kernel))

/-- Embedding of `_register_kernel_internal` used as a complete registration: the factory
is called and, when it does not raise, the returned decorator is immediately
applied to the kernel. -/
def _register_kernel_internal (st : Registry) (functional : String) (input_type : PyType)
    (kernel : Kernel) (datapoint_wrapper : Bool) : Registry × Option PyErr :=
  match registerKernelFactory st functional input_type with
  | (st, some e) => (st, some e)
  | (st, none) => (registerKernelDecorator st functional input_type datapoint_wrapper kernel, none)

/-- Embedding of `_BUILTIN_DATAPOINT_TYPES` from the source: every class in the
`datapoints` namespace that is a subclass of `Datapoint`.  The namespace
holds the marker type itself and the four concrete built-ins, so the
comprehension collects all five. -/
def _BUILTIN_DATAPOINT_TYPES : List PyType :=
  [Datapoint, Image, Video, BoundingBoxes, Mask]

/-- Public `register_kernel` used as a complete registration.  The
functional argument is taken already resolved to its name (string
resolution via `_name_to_functional` is a lookup in an external namespace).
Validates that `datapoint_cls` is a `Datapoint` subclass and not a
built-in, then delegates to `_register_kernel_internal` with
`datapoint_wrapper := false`. -/
def register_kernel (st : Registry) (functional : String) (datapoint_cls : PyType)
    (kernel : Kernel) : Registry × Option PyErr :=
  if !issubclass datapoint_cls Datapoint then
    (st, some (PyErr.valueError (notDatapointMsg datapoint_cls)))
  else if _BUILTIN_DATAPOINT_TYPES.contains datapoint_cls then
    (st, some (PyErr.valueError (builtinMsg datapoint_cls)))
  else
    _register_kernel_internal st functional datapoint_cls kernel false

/-- The MRO loop of `_get_kernel`: for each class in the input type's MRO,
return its registered kernel if present, and stop the walk without a result
upon reaching the `Datapoint` marker. -/
def mroWalk (bucket : List (String × PyKernel)) : List String → Option PyKernel
  | [] => none
  | cls :: rest =>
    match dictGet bucket cls with
    | some k => some k
    | none => if cls = Datapoint.name then none else mroWalk bucket rest

/-- Embedding of `_get_kernel` from the source.  `if not registry` is true both when the
functional has no bucket and when its bucket is empty. -/
def _get_kernel (st : Registry) (functional : String) (input_type : PyType)
    (allow_passthrough : Bool) : Except PyErr PyKernel :=
  let registry := (dictGet st functional).getD []
  if registry.isEmpty then
    Except.error (PyErr.valueError (noBucketMsg functional))
  else
    match mroWalk registry input_type.mro with
    | some k => Except.ok k
    | none =>
      if allow_passthrough then
        Except.ok (PyKernel.single (fun inpt _args => Except.ok inpt))
      else
        Except.error (PyErr.typeError (unsupportedTypeMsg functional registry input_type))

/-- The local `wrap` of `_register_five_ten_crop_kernel_internal`: the
returned kernel invokes the raw kernel with the original (still
specialized) input, then rewraps every element of the output collection
against the input as the "like" reference, rebuilding the same container
type. -/
def five_ten_wrap (kernel : MultiKernel) : MultiKernel :=
  fun inpt args =>
    match kernel inpt args with
    | Except.error e => Except.error e
    | Except.ok output =>
      Except.ok { ctype := output.ctype,
                  elems := output.elems.map (fun o => datapoints_wrap o (some inpt)) }

/-- The decorator-factory stage of `_register_five_ten_crop_kernel_internal`:
`setdefault` plus the duplicate check (which raises a `TypeError` here). -/
def registerFiveTenFactory (st : Registry) (functional : String) (input_type : PyType) :
    Registry × Option PyErr :=
  if dictContains ((dictGet (regSetdefault st functional) functional).getD []) input_type.name then
    (regSetdefault st functional, some (PyErr.typeError (dupFiveTenMsg functional input_type)))
  else
    (regSetdefault st functional, none)

/-- The decorator stage of `_register_five_ten_crop_kernel_internal`:
stores the kernel wrapped with the multi-output wrapper when the input type
is a `Datapoint` subclass. -/
def registerFiveTenDecorator (st : Registry) (functional : String) (input_type : PyType)
    (kernel : MultiKernel) : Registry :=
  regStore st functional input_type.name
    (PyKernel.multi (if issubclass input_type Datapoint then five_ten_wrap kernel else kernel))

/-- Embedding of `_register_five_ten_crop_kernel_internal` used as a complete
registration. -/
def _register_five_ten_crop_kernel_internal (st : Registry) (functional : String)
    (input_type : PyType) (kernel : MultiKernel) : Registry × Option PyErr :=
  match registerFiveTenFactory st functional input_type with
  | (st, some e) => (st, some e)
  | (st, none) => (registerFiveTenDecorator st functional input_type kernel, none)

/-! ### Concrete fixtures used in witnesses and counterexamples -/

/-- A custom, non-built-in datapoint subtype (as in the spec's end-to-end
scenario). -/
def Caption : PyType :=
  { name := "Caption", mro := ["Caption", "Datapoint", "Tensor", "object"] }

/-- A concrete specialized value of type `Caption`. -/
def capVal : Value :=
  { ty := Caption, storage := 0, data := [1, 2, 3], meta := [("canvas", 5)] }

/-- A concrete kernel: fresh storage, doubled payload, no metadata. -/
def demoKernel : Kernel :=
  fun v _args => Except.ok { ty := v.ty, storage := v.storage + 1, data := v.data.map (2 * ·), meta := [] }

/-- A concrete kernel that returns the plain-tensor view of its input: its
raw output has type `Tensor`, so raw and auto-wrapped registration are
observationally different on it. -/
def viewKernel : Kernel :=
  fun v _args => Except.ok (as_subclass v torchTensor)

/-- A concrete kernel that always raises. -/
def failKernel : Kernel :=
  fun _v _args => Except.error (PyErr.valueError "boom")

/-- A concrete multi-output kernel: a pair of shifted-storage copies of the
plain view of the input, in a `tuple` container. -/
def demoMultiKernel : MultiKernel :=
  fun v _args => Except.ok
    { ctype := "tuple",
      elems := [as_subclass { v with storage := v.storage + 1 } torchTensor,
                as_subclass { v with storage := v.storage + 2 } torchTensor] }

/-! ### Dictionary and registry lemmas -/

theorem dictGet_insert_self {α : Type} (d : List (String × α)) (key : String) (v : α) :
    dictGet (dictInsert d key v) key = some v := by
  induction d with
  | nil => simp [dictInsert, dictGet]
  | cons hd tl ih =>
    obtain ⟨k, w⟩ := hd
    by_cases h : k = key
    · simp [dictInsert, h, dictGet]
    · simp [dictInsert, h, dictGet, ih]

theorem dictGet_append_of_none {α : Type} (d e : List (String × α)) (key : String)
    (h : dictGet d key = none) : dictGet (d ++ e) key = dictGet e key := by
  induction d with
  | nil => simp
  | cons hd tl ih =>
    obtain ⟨k, w⟩ := hd
    by_cases hk : k = key
    · simp [dictGet, hk] at h
    · simp [dictGet, hk] at h ⊢
      exact ih h

theorem regSetdefault_get (st : Registry) (f : String) :
    dictGet (regSetdefault st f) f = some ((dictGet st f).getD []) := by
  unfold regSetdefault dictContains
  cases h : dictGet st f with
  | some b => simp [h]
  | none => simp [h, dictGet_append_of_none st [(f, [])] f h, dictGet]

theorem regSetdefault_of_isSome (st : Registry) (f : String)
    (h : (dictGet st f).isSome = true) : regSetdefault st f = st := by
  simp [regSetdefault, dictContains, h]

theorem regStore_get (st : Registry) (f t : String) (k : PyKernel)
    (b : List (String × PyKernel)) (h : dictGet st f = some b) :
    dictGet (regStore st f t k) f = some (dictInsert b t k) := by
  induction st with
  | nil => simp [dictGet] at h
  | cons hd tl ih =>
    obtain ⟨g, bb⟩ := hd
    by_cases hg : g = f
    · subst hg
      simp [dictGet] at h
      subst h
      simp [regStore, dictGet]
    · simp [dictGet, hg] at h
      simp [regStore, hg, dictGet, ih h]

theorem isEmpty_false_of_dictGet {α : Type} (d : List (String × α)) (key : String) (v : α)
    (h : dictGet d key = some v) : d.isEmpty = false := by
  cases d with
  | nil => simp [dictGet] at h
  | cons hd tl => simp

theorem mroWalk_miss (b : List (String × PyKernel)) (pre post : List String)
    (hpre : ∀ c ∈ pre, dictGet b c = none)
    (hdp : dictGet b Datapoint.name = none) :
    mroWalk b (pre ++ Datapoint.name :: post) = none := by
  induction pre with
  | nil => simp [mroWalk, hdp]
  | cons c cs ih =>
    have hc := hpre c (by simp)
    by_cases hcd : c = Datapoint.name
    · simp [mroWalk, hc, hcd, hdp]
    · simp [mroWalk, hc, hcd]
      exact ih (fun x hx => hpre x (by simp [hx]))

theorem factory_state (st : Registry) (f : String) (t : PyType) :
    (registerKernelFactory st f t).1 = regSetdefault st f := by
  unfold registerKernelFactory
  split <;> rfl

theorem factory_success (st : Registry) (f : String) (t : PyType)
    (h : (registerKernelFactory st f t).2 = none) :
    dictContains ((dictGet st f).getD []) t.name = false := by
  unfold registerKernelFactory at h
  rw [regSetdefault_get] at h
  by_cases hc : dictContains ((dictGet st f).getD []) t.name
  · simp [hc] at h
  · simpa using hc

theorem fiveTenFactory_state (st : Registry) (f : String) (t : PyType) :
    (registerFiveTenFactory st f t).1 = regSetdefault st f := by
  unfold registerFiveTenFactory
  split <;> rfl

theorem fiveTenFactory_success (st : Registry) (f : String) (t : PyType)
    (h : (registerFiveTenFactory st f t).2 = none) :
    dictContains ((dictGet st f).getD []) t.name = false := by
  unfold registerFiveTenFactory at h
  rw [regSetdefault_get] at h
  by_cases hc : dictContains ((dictGet st f).getD []) t.name
  · simp [hc] at h
  · simpa using hc

/-! ### Claim theorems -/

/-- A concrete registry with one kernel, registered for `Image`. -/
def demoRegistry : Registry := [("resize", [("Image", PyKernel.single demoKernel)])]

/-- A concrete registry with kernels for both `Datapoint` and its subtype
`Image`. -/
def demoRegistryDP : Registry :=
  [("resize", [("Datapoint", PyKernel.single demoKernel), ("Image", PyKernel.single viewKernel)])]

/-- A concrete registry whose only kernel is registered for the generic
array type `Tensor`. -/
def demoRegistryT : Registry := [("resize", [("Tensor", PyKernel.single demoKernel)])]

/-- C5: if a functional has no bucket at all in the registry, `_get_kernel`
fails with the "functional not recognized" `ValueError` — for every input
type and even when passthrough is allowed, i.e. before any ancestry walk —
and that error is distinct from the "no kernel for type" dispatch error,
which is a `TypeError`. -/
theorem C5_no_bucket_error (st : Registry) (f : String) (t : PyType) (ap : Bool)
    (h : dictGet st f = none) :
    _get_kernel st f t ap = Except.error (PyErr.valueError (noBucketMsg f)) ∧
    ∀ msg, PyErr.valueError (noBucketMsg f) ≠ PyErr.typeError msg := by
  refine ⟨by simp [_get_kernel, h], fun msg hmsg => by cases hmsg⟩

/-- Witness for C5: the never-registered functional "resize" in the empty
registry. -/
theorem C5_witness :
    _get_kernel [] "resize" Caption false = Except.error (PyErr.valueError (noBucketMsg "resize")) :=
  (C5_no_bucket_error [] "resize" Caption false rfl).1

/-- C9: when the functional's bucket exists and the MRO walk finds no
matching kernel, `_get_kernel` with `allow_passthrough = true` returns the
identity kernel, which returns any input value unchanged and ignores the
extra arguments. -/
theorem C9_passthrough_identity (st : Registry) (f : String) (t : PyType)
    (b : List (String × PyKernel)) (v : Value) (args : Args)
    (hb : dictGet st f = some b) (hne : b.isEmpty = false)
    (hmiss : mroWalk b t.mro = none) :
    _get_kernel st f t true = Except.ok (PyKernel.single (fun inpt _args => Except.ok inpt)) ∧
    (fun (inpt : Value) (_args : Args) => (Except.ok inpt : Except PyErr Value)) v args
      = Except.ok v := by
  refine ⟨by simp [_get_kernel, hb, hne, hmiss], rfl⟩

/-- Witness for C9: no kernel matches `Caption` in a registry that only
has one for `Image`, so passthrough resolution returns the identity,
checked on a concrete `Caption` value. -/
theorem C9_witness :
    _get_kernel demoRegistry "resize" Caption true
      = Except.ok (PyKernel.single (fun inpt _args => Except.ok inpt)) ∧
    (fun (inpt : Value) (_args : Args) => (Except.ok inpt : Except PyErr Value)) capVal [7]
      = Except.ok capVal :=
  C9_passthrough_identity demoRegistry "resize" Caption
    [("Image", PyKernel.single demoKernel)] capVal [7] rfl rfl rfl

/-- C4: if kernels are registered under a functional for both a type `S`
and one of `S`'s ancestors `P`, resolving for `S` returns `S`'s kernel —
the MRO walk is most-specific-first and returns the first match
immediately, so `P`'s kernel is never consulted. -/
theorem C4_most_specific_wins (st : Registry) (f : String) (S P : PyType)
    (restMro : List String) (b : List (String × PyKernel)) (kS kP : PyKernel)
    (hb : dictGet st f = some b)
    (hmro : S.mro = S.name :: restMro)
    (_hanc : P.name ∈ restMro)
    (hS : dictGet b S.name = some kS)
    (_hP : dictGet b P.name = some kP) :
    _get_kernel st f S false = Except.ok kS := by
  have hne := isEmpty_false_of_dictGet b S.name kS hS
  simp [_get_kernel, hb, hne, hmro, mroWalk, hS]

/-- Witness for C4: `Image` and its ancestor `Datapoint` both have kernels;
resolution for `Image` returns the `Image` kernel. -/
theorem C4_witness :
    _get_kernel demoRegistryDP "resize" Image false = Except.ok (PyKernel.single viewKernel) :=
  C4_most_specific_wins demoRegistryDP "resize" Image Datapoint
    ["Datapoint", "Tensor", "object"]
    [("Datapoint", PyKernel.single demoKernel), ("Image", PyKernel.single viewKernel)]
    (PyKernel.single viewKernel) (PyKernel.single demoKernel)
    rfl rfl (by decide) rfl rfl

/-- C2: for a type `D` whose MRO reaches the `Datapoint` marker, if no
kernel is registered for any class strictly before the marker nor for the
marker itself, resolution with passthrough not permitted fails with the
dispatch `TypeError` even though the generic array type `Tensor` has a
registered kernel under the functional: the walk stops at the `Datapoint`
marker and never falls through to the array-level kernel. -/
theorem C2_cutoff_no_tensor_fallthrough (st : Registry) (f : String) (D : PyType)
    (pre post : List String) (b : List (String × PyKernel)) (kT : PyKernel)
    (hb : dictGet st f = some b)
    (hmro : D.mro = pre ++ Datapoint.name :: post)
    (hpre : ∀ c ∈ pre, dictGet b c = none)
    (hdp : dictGet b Datapoint.name = none)
    (hT : dictGet b torchTensor.name = some kT) :
    _get_kernel st f D false = Except.error (PyErr.typeError (unsupportedTypeMsg f b D)) := by
  have hne := isEmpty_false_of_dictGet b torchTensor.name kT hT
  have hwalk := mroWalk_miss b pre post hpre hdp
  rw [← hmro] at hwalk
  simp [_get_kernel, hb, hne, hwalk]

/-- Witness for C2: the custom type `Caption` has no registered kernel and
"resize" has one for `Tensor` only; resolution still fails. -/
theorem C2_witness :
    _get_kernel demoRegistryT "resize" Caption false
      = Except.error (PyErr.typeError
          (unsupportedTypeMsg "resize" [("Tensor", PyKernel.single demoKernel)] Caption)) :=
  C2_cutoff_no_tensor_fallthrough demoRegistryT "resize" Caption
    ["Caption"] ["Tensor", "object"]
    [("Tensor", PyKernel.single demoKernel)] (PyKernel.single demoKernel)
    rfl rfl
    (by intro c hc; rw [List.mem_singleton] at hc; subst hc; rfl)
    rfl rfl

/-- C6: the datapoint wrapper passes the kernel a plain unwrapped view of
the input — same storage, runtime class `Tensor` — with the same extra
arguments, and returns the raw result rewrapped against the input as the
"like" reference, so the result has the input's type and the raw output's
storage; errors raised by the kernel propagate unchanged. -/
theorem C6_wrapper_composition (k : Kernel) (x : Value) (args : Args) :
    (as_subclass x torchTensor).storage = x.storage ∧
    (as_subclass x torchTensor).ty = torchTensor ∧
    _kernel_datapoint_wrapper k x args
      = (k (as_subclass x torchTensor) args).map (fun out => datapoints_wrap out (some x)) ∧
    (∀ out : Value, (datapoints_wrap out (some x)).ty = x.ty ∧
      (datapoints_wrap out (some x)).storage = out.storage) ∧
    (∀ e : PyErr, k (as_subclass x torchTensor) args = Except.error e →
      _kernel_datapoint_wrapper k x args = Except.error e) := by
  refine ⟨rfl, rfl, ?_, fun out => ⟨rfl, rfl⟩, fun e he => ?_⟩
  · cases h : k (as_subclass x torchTensor) args <;>
      simp [_kernel_datapoint_wrapper, h, Except.map]
  · simp [_kernel_datapoint_wrapper, he]

/-- Witness for C6: the wrapped demo kernel on a concrete `Caption` value
keeps the `Caption` type, the kernel's fresh storage and the reference
metadata; and the wrapped failing kernel propagates the failure. -/
theorem C6_witness :
    _kernel_datapoint_wrapper demoKernel capVal []
      = Except.ok { ty := Caption, storage := 1, data := [2, 4, 6], meta := [("canvas", 5)] } ∧
    _kernel_datapoint_wrapper failKernel capVal [] = Except.error (PyErr.valueError "boom") := by
  constructor
  · have h := (C6_wrapper_composition demoKernel capVal []).2.2.1
    rw [h]
    rfl
  · exact (C6_wrapper_composition failKernel capVal []).2.2.2.2 (PyErr.valueError "boom") rfl

/-- C7: the five/ten-crop wrapper invokes the kernel with the original,
still specialized input (no unwrap), rewraps every element of the result
collection individually against the input as the "like" reference, and
rebuilds the same container type. -/
theorem C7_multi_output_wrapper (k : MultiKernel) (x : Value) (args : Args) (out : PyTuple)
    (h : k x args = Except.ok out) :
    five_ten_wrap k x args
      = Except.ok { ctype := out.ctype,
                    elems := out.elems.map (fun o => datapoints_wrap o (some x)) } := by
  simp [five_ten_wrap, h]

/-- Witness for C7: the wrapped demo multi-kernel on a concrete `Caption`
value returns a `tuple` of `Caption`-typed elements with the raw outputs'
storages. -/
theorem C7_witness :
    five_ten_wrap demoMultiKernel capVal []
      = Except.ok { ctype := "tuple",
                    elems := [{ ty := Caption, storage := 1, data := [1, 2, 3], meta := [("canvas", 5)] },
                              { ty := Caption, storage := 2, data := [1, 2, 3], meta := [("canvas", 5)] }] } := by
  have h := C7_multi_output_wrapper demoMultiKernel capVal []
    { ctype := "tuple",
      elems := [as_subclass { capVal with storage := capVal.storage + 1 } torchTensor,
                as_subclass { capVal with storage := capVal.storage + 2 } torchTensor] } rfl
  rw [h]
  rfl

/-- C8: public `register_kernel` fails with a validation `ValueError` and
leaves the registry unchanged both for every member of the built-in
datapoint type set and for every class that is not a `Datapoint`
subclass. -/
theorem C8_public_registration_validation (st : Registry) (f : String) (cls : PyType) (k : Kernel) :
    (cls ∈ _BUILTIN_DATAPOINT_TYPES →
      register_kernel st f cls k = (st, some (PyErr.valueError (builtinMsg cls)))) ∧
    (issubclass cls Datapoint = false →
      register_kernel st f cls k = (st, some (PyErr.valueError (notDatapointMsg cls)))) := by
  constructor
  · intro h
    simp [_BUILTIN_DATAPOINT_TYPES] at h
    rcases h with h | h | h | h | h <;> subst h <;> rfl
  · intro h
    simp [register_kernel, h]

/-- Witness for C8: registering for the built-in `Image` fails with the
built-in-rejection error; registering for plain `Tensor` fails with the
not-a-datapoint error; the registry is returned unchanged in both cases. -/
theorem C8_witness :
    register_kernel demoRegistry "resize" Image demoKernel
      = (demoRegistry, some (PyErr.valueError (builtinMsg Image))) ∧
    register_kernel demoRegistry "resize" torchTensor demoKernel
      = (demoRegistry, some (PyErr.valueError (notDatapointMsg torchTensor))) :=
  ⟨(C8_public_registration_validation demoRegistry "resize" Image demoKernel).1 (by decide),
   (C8_public_registration_validation demoRegistry "resize" torchTensor demoKernel).2 rfl⟩

/-- C1 counterexample: registering `viewKernel` for the custom type
`Caption` through the public `register_kernel` succeeds, but the stored
kernel is the raw supplied kernel, not the supplied kernel composed with
the unwrap/rewrap adapter — the two are observably different, so the claim
that public registration delegates with `auto_wrap = true` is false. -/
theorem C1_counterexample :
    (register_kernel [] "resize" Caption viewKernel).2 = none ∧
    _get_kernel (register_kernel [] "resize" Caption viewKernel).1 "resize" Caption false
      = Except.ok (PyKernel.single viewKernel) ∧
    _get_kernel (register_kernel [] "resize" Caption viewKernel).1 "resize" Caption false
      ≠ Except.ok (PyKernel.single (_kernel_datapoint_wrapper viewKernel)) := by
  refine ⟨rfl, rfl, ?_⟩
  intro hcontra
  have h0 : _get_kernel (register_kernel [] "resize" Caption viewKernel).1 "resize" Caption false
      = Except.ok (PyKernel.single viewKernel) := rfl
  rw [h0] at hcontra
  have h1 : PyKernel.single viewKernel = PyKernel.single (_kernel_datapoint_wrapper viewKernel) := by
    injection hcontra
  have h2 : viewKernel = _kernel_datapoint_wrapper viewKernel := by
    injection h1
  have h3 := congrFun (congrFun h2 capVal) []
  have h5 : (viewKernel capVal []).toOption.map Value.ty
      ≠ ((_kernel_datapoint_wrapper viewKernel) capVal []).toOption.map Value.ty := by
    decide
  exact h5 (congrArg (fun r => r.toOption.map Value.ty) h3)

/-- C1 as amended: a successful public `register_kernel` delegates to the
internal registration with `datapoint_wrapper = false`, so the stored
kernel is the supplied kernel unmodified (the supplied kernel manages
wrapping itself). -/
theorem C1_raw_registration (st : Registry) (f : String) (D : PyType) (k : Kernel)
    (restMro : List String)
    (hsub : issubclass D Datapoint = true)
    (hnb : _BUILTIN_DATAPOINT_TYPES.contains D = false)
    (hdup : dictContains ((dictGet st f).getD []) D.name = false)
    (hmro : D.mro = D.name :: restMro) :
    register_kernel st f D k = _register_kernel_internal st f D k false ∧
    (register_kernel st f D k).2 = none ∧
    _get_kernel (register_kernel st f D k).1 f D false = Except.ok (PyKernel.single k) := by
  have hnb' : D ∉ _BUILTIN_DATAPOINT_TYPES := by simpa using hnb
  have hF : registerKernelFactory st f D = (regSetdefault st f, none) := by
    unfold registerKernelFactory
    rw [regSetdefault_get]
    simp [hdup]
  have hreg : register_kernel st f D k
      = (regStore (regSetdefault st f) f D.name (PyKernel.single k), none) := by
    simp [register_kernel, hsub, hnb', _register_kernel_internal, hF, registerKernelDecorator]
  refine ⟨by simp [register_kernel, hsub, hnb'], by rw [hreg], ?_⟩
  rw [hreg]
  have hb1 := regStore_get (regSetdefault st f) f D.name (PyKernel.single k) _
    (regSetdefault_get st f)
  have hg := dictGet_insert_self ((dictGet st f).getD []) D.name (PyKernel.single k)
  have hne := isEmpty_false_of_dictGet _ _ _ hg
  simp [_get_kernel, hb1, hne, hmro, mroWalk, hg]

/-- Witness for C1's amended statement: a concrete successful public
registration of `demoKernel` for `Caption` stores exactly `demoKernel`. -/
theorem C1_witness :
    register_kernel [] "resize" Caption demoKernel
      = _register_kernel_internal [] "resize" Caption demoKernel false ∧
    (register_kernel [] "resize" Caption demoKernel).2 = none ∧
    _get_kernel (register_kernel [] "resize" Caption demoKernel).1 "resize" Caption false
      = Except.ok (PyKernel.single demoKernel) :=
  C1_raw_registration [] "resize" Caption demoKernel ["Datapoint", "Tensor", "object"]
    rfl (by decide) rfl rfl

theorem register_internal_success (st : Registry) (f : String) (t : PyType) (k : Kernel)
    (dw : Bool) (h : (_register_kernel_internal st f t k dw).2 = none) :
    _register_kernel_internal st f t k dw
      = (registerKernelDecorator (regSetdefault st f) f t dw k, none) ∧
    dictContains ((dictGet st f).getD []) t.name = false := by
  have h2 : (registerKernelFactory st f t).2 = none := by
    unfold _register_kernel_internal at h
    rcases hF : registerKernelFactory st f t with ⟨st', e⟩
    rw [hF] at h
    cases e with
    | none => rfl
    | some err => simp at h
  have hF' : registerKernelFactory st f t = (regSetdefault st f, none) := by
    rw [Prod.ext_iff]
    exact ⟨factory_state st f t, h2⟩
  constructor
  · unfold _register_kernel_internal
    rw [hF']
  · exact factory_success st f t h2

theorem fiveTen_internal_success (st : Registry) (f : String) (t : PyType) (k : MultiKernel)
    (h : (_register_five_ten_crop_kernel_internal st f t k).2 = none) :
    _register_five_ten_crop_kernel_internal st f t k
      = (registerFiveTenDecorator (regSetdefault st f) f t k, none) ∧
    dictContains ((dictGet st f).getD []) t.name = false := by
  have h2 : (registerFiveTenFactory st f t).2 = none := by
    unfold _register_five_ten_crop_kernel_internal at h
    rcases hF : registerFiveTenFactory st f t with ⟨st', e⟩
    rw [hF] at h
    cases e with
    | none => rfl
    | some err => simp at h
  have hF' : registerFiveTenFactory st f t = (regSetdefault st f, none) := by
    rw [Prod.ext_iff]
    exact ⟨fiveTenFactory_state st f t, h2⟩
  constructor
  · unfold _register_five_ten_crop_kernel_internal
    rw [hF']
  · exact fiveTenFactory_success st f t h2

theorem regStore_then_lookup (st : Registry) (f : String) (t : PyType) (e1 : PyKernel)
    (restMro : List String) (hmro : t.mro = t.name :: restMro) :
    _get_kernel (regStore (regSetdefault st f) f t.name e1) f t false = Except.ok e1 := by
  have hb1 := regStore_get (regSetdefault st f) f t.name e1 _ (regSetdefault_get st f)
  have hg1 := dictGet_insert_self ((dictGet st f).getD []) t.name e1
  have hne := isEmpty_false_of_dictGet _ _ _ hg1
  simp [_get_kernel, hb1, hne, hmro, mroWalk, hg1]

theorem regStore_factory_dup (st : Registry) (f : String) (t : PyType) (e1 : PyKernel) :
    registerKernelFactory (regStore (regSetdefault st f) f t.name e1) f t
      = (regStore (regSetdefault st f) f t.name e1,
          some (PyErr.valueError (dupKernelMsg f t))) := by
  have hb1 := regStore_get (regSetdefault st f) f t.name e1 _ (regSetdefault_get st f)
  have hg1 := dictGet_insert_self ((dictGet st f).getD []) t.name e1
  unfold registerKernelFactory
  rw [regSetdefault_of_isSome _ f (by rw [hb1]; rfl)]
  rw [hb1]
  simp [dictContains, hg1]

theorem regStore_fiveTenFactory_dup (st : Registry) (f : String) (t : PyType) (e1 : PyKernel) :
    registerFiveTenFactory (regStore (regSetdefault st f) f t.name e1) f t
      = (regStore (regSetdefault st f) f t.name e1,
          some (PyErr.typeError (dupFiveTenMsg f t))) := by
  have hb1 := regStore_get (regSetdefault st f) f t.name e1 _ (regSetdefault_get st f)
  have hg1 := dictGet_insert_self ((dictGet st f).getD []) t.name e1
  unfold registerFiveTenFactory
  rw [regSetdefault_of_isSome _ f (by rw [hb1]; rfl)]
  rw [hb1]
  simp [dictContains, hg1]

/-- C3: completing a registration for the same (functional, type) pair
twice — through either registration pathway — raises the
duplicate-registration error on the second attempt (a `ValueError` naming
the functional and the type for `_register_kernel_internal`, a `TypeError`
for `_register_five_ten_crop_kernel_internal`), the registry is left as
the first registration made it, and lookup still returns the first
registration's stored kernel. -/
theorem C3_duplicate_registration (st st2 : Registry) (f f2 : String) (t t2 : PyType)
    (dw : Bool) (k1 k2 : Kernel) (mk1 mk2 : MultiKernel) (restA restB : List String)
    (hA : (_register_kernel_internal st f t k1 dw).2 = none)
    (hmroA : t.mro = t.name :: restA)
    (hB : (_register_five_ten_crop_kernel_internal st2 f2 t2 mk1).2 = none)
    (hmroB : t2.mro = t2.name :: restB) :
    _register_kernel_internal (_register_kernel_internal st f t k1 dw).1 f t k2 dw
      = ((_register_kernel_internal st f t k1 dw).1, some (PyErr.valueError (dupKernelMsg f t))) ∧
    _get_kernel (_register_kernel_internal st f t k1 dw).1 f t false
      = Except.ok (PyKernel.single
          (if issubclass t Datapoint && dw then _kernel_datapoint_wrapper k1 else k1)) ∧
    _register_five_ten_crop_kernel_internal
        (_register_five_ten_crop_kernel_internal st2 f2 t2 mk1).1 f2 t2 mk2
      = ((_register_five_ten_crop_kernel_internal st2 f2 t2 mk1).1,
          some (PyErr.typeError (dupFiveTenMsg f2 t2))) ∧
    _get_kernel (_register_five_ten_crop_kernel_internal st2 f2 t2 mk1).1 f2 t2 false
      = Except.ok (PyKernel.multi
          (if issubclass t2 Datapoint then five_ten_wrap mk1 else mk1)) := by
  obtain ⟨hAeq, _hAdup⟩ := register_internal_success st f t k1 dw hA
  obtain ⟨hBeq, _hBdup⟩ := fiveTen_internal_success st2 f2 t2 mk1 hB
  rw [hAeq, hBeq]
  refine ⟨?_,
    regStore_then_lookup st f t
      (PyKernel.single (if issubclass t Datapoint && dw then _kernel_datapoint_wrapper k1 else k1))
      restA hmroA,
    ?_,
    regStore_then_lookup st2 f2 t2
      (PyKernel.multi (if issubclass t2 Datapoint then five_ten_wrap mk1 else mk1))
      restB hmroB⟩
  · show _register_kernel_internal
        (regStore (regSetdefault st f) f t.name
          (PyKernel.single (if issubclass t Datapoint && dw then _kernel_datapoint_wrapper k1 else k1)))
        f t k2 dw
      = (regStore (regSetdefault st f) f t.name
          (PyKernel.single (if issubclass t Datapoint && dw then _kernel_datapoint_wrapper k1 else k1)),
          some (PyErr.valueError (dupKernelMsg f t)))
    unfold _register_kernel_internal
    rw [regStore_factory_dup]
  · show _register_five_ten_crop_kernel_internal
        (regStore (regSetdefault st2 f2) f2 t2.name
          (PyKernel.multi (if issubclass t2 Datapoint then five_ten_wrap mk1 else mk1)))
        f2 t2 mk2
      = (regStore (regSetdefault st2 f2) f2 t2.name
          (PyKernel.multi (if issubclass t2 Datapoint then five_ten_wrap mk1 else mk1)),
          some (PyErr.typeError (dupFiveTenMsg f2 t2)))
    unfold _register_five_ten_crop_kernel_internal
    rw [regStore_fiveTenFactory_dup]

/-- Witness for C3: registering a second kernel for ("resize", `Caption`)
after a completed first registration raises the duplicate `ValueError` and
leaves the registry as the first registration made it. -/
theorem C3_witness :
    _register_kernel_internal (_register_kernel_internal [] "resize" Caption demoKernel true).1
        "resize" Caption viewKernel true
      = ((_register_kernel_internal [] "resize" Caption demoKernel true).1,
          some (PyErr.valueError (dupKernelMsg "resize" Caption))) :=
  (C3_duplicate_registration [] [] "resize" "five_crop" Caption Caption true demoKernel
    viewKernel demoMultiKernel demoMultiKernel
    ["Datapoint", "Tensor", "object"] ["Datapoint", "Tensor", "object"]
    rfl rfl rfl rfl).1

theorem regStore_overwrite (st1 : Registry) (f tn : String) (e2 : PyKernel)
    (b1 : List (String × PyKernel)) (hb : dictGet st1 f = some b1) :
    dictGet ((dictGet (regStore st1 f tn e2) f).getD []) tn = some e2 := by
  rw [regStore_get st1 f tn e2 b1 hb]
  simp [dictGet_insert_self]

/-- C10: the duplicate check of the internal registration runs when the
decorator factory is called, not when the returned decorator stores the
kernel: if the factory succeeds and is called again for the same
(functional, type) before either decorator is applied, the second factory
call also succeeds; applying the two decorators in turn then stores
without any error (the decorator stage is a total, check-free store), the
first application's kernel is in the registry in between, and the second
application silently overwrites it — so the at-most-one-kernel invariant
is not enforced at insertion time. -/
theorem C10_factory_time_check (st : Registry) (f : String) (t : PyType) (dw : Bool)
    (k1 k2 : Kernel) (h : (registerKernelFactory st f t).2 = none) :
    registerKernelFactory (regSetdefault st f) f t = (regSetdefault st f, none) ∧
    dictGet ((dictGet (registerKernelDecorator (regSetdefault st f) f t dw k1) f).getD [])
        t.name
      = some (PyKernel.single
          (if issubclass t Datapoint && dw then _kernel_datapoint_wrapper k1 else k1)) ∧
    dictGet ((dictGet (registerKernelDecorator
          (registerKernelDecorator (regSetdefault st f) f t dw k1) f t dw k2) f).getD [])
        t.name
      = some (PyKernel.single
          (if issubclass t Datapoint && dw then _kernel_datapoint_wrapper k2 else k2)) := by
  have hdup := factory_success st f t h
  refine ⟨?_, ?_, ?_⟩
  · unfold registerKernelFactory
    rw [regSetdefault_of_isSome _ f (by rw [regSetdefault_get]; rfl)]
    rw [regSetdefault_get]
    simp [hdup]
  · exact regStore_overwrite (regSetdefault st f) f t.name
      (PyKernel.single (if issubclass t Datapoint && dw then _kernel_datapoint_wrapper k1 else k1))
      _ (regSetdefault_get st f)
  · exact regStore_overwrite
      (regStore (regSetdefault st f) f t.name
        (PyKernel.single (if issubclass t Datapoint && dw then _kernel_datapoint_wrapper k1 else k1)))
      f t.name
      (PyKernel.single (if issubclass t Datapoint && dw then _kernel_datapoint_wrapper k2 else k2))
      _ (regStore_get (regSetdefault st f) f t.name
          (PyKernel.single (if issubclass t Datapoint && dw then _kernel_datapoint_wrapper k1 else k1))
          _ (regSetdefault_get st f))

/-- Witness for C10: two factories for ("resize", `Caption`) obtained from
the empty registry before either decorator runs; both stores succeed and
the second kernel replaces the first. -/
theorem C10_witness :
    registerKernelFactory (regSetdefault [] "resize") "resize" Caption
      = (regSetdefault [] "resize", none) ∧
    dictGet ((dictGet (registerKernelDecorator (regSetdefault [] "resize") "resize" Caption
          true demoKernel) "resize").getD []) Caption.name
      = some (PyKernel.single
          (if issubclass Caption Datapoint && true then _kernel_datapoint_wrapper demoKernel
            else demoKernel)) ∧
    dictGet ((dictGet (registerKernelDecorator
          (registerKernelDecorator (regSetdefault [] "resize") "resize" Caption true demoKernel)
          "resize" Caption true viewKernel) "resize").getD []) Caption.name
      = some (PyKernel.single
          (if issubclass Caption Datapoint && true then _kernel_datapoint_wrapper viewKernel
            else viewKernel)) :=
  C10_factory_time_check [] "resize" Caption true demoKernel viewKernel rfl
